import Mathlib

/-!
Verification development for a WebGPU GLB (binary glTF) scene loader.

The definitions below are a shallow embedding of the loader's source
(`glb` module): pure functions are translated directly, stateful object
code becomes explicit state passing, JavaScript numbers are modelled as
exact rationals (for matrix arithmetic) or naturals (for byte geometry),
and code that throws becomes `Except`/`Option`-valued. JavaScript
`undefined` checks are modelled with `Option`.
-/

namespace Spec2Proof

/-- Embeds `alignTo(val, align)`: `Math.floor((val + align - 1) / align) * align`
on non-negative integers, where `/` with `Math.floor` is natural division. -/
def alignTo (val align : ℕ) : ℕ :=
  (val + align - 1) / align * align

/-- Embeds the `GLTFType` enum (shape of an accessor element). -/
inductive GLTFType where
  | SCALAR
  | VEC2
  | VEC3
  | VEC4
  | MAT2
  | MAT3
  | MAT4
  deriving DecidableEq, Repr

/-- Embeds `parseGltfType(type)`: maps a shape string to the enum, throwing
on anything else. -/
def parseGltfType (type : String) : Except String GLTFType :=
  if type == "SCALAR" then Except.ok GLTFType.SCALAR
  else if type == "VEC2" then Except.ok GLTFType.VEC2
  else if type == "VEC3" then Except.ok GLTFType.VEC3
  else if type == "VEC4" then Except.ok GLTFType.VEC4
  else if type == "MAT2" then Except.ok GLTFType.MAT2
  else if type == "MAT3" then Except.ok GLTFType.MAT3
  else if type == "MAT4" then Except.ok GLTFType.MAT4
  else Except.error ("Unhandled glTF Type " ++ type)

/-- Embeds `gltfTypeNumComponents(type)` (total on the enum; the source's
`default: throw` branch is unreachable for enum values). -/
def gltfTypeNumComponents (type : GLTFType) : ℕ :=
  match type with
  | GLTFType.SCALAR => 1
  | GLTFType.VEC2 => 2
  | GLTFType.VEC3 => 3
  | GLTFType.VEC4 => 4
  | GLTFType.MAT2 => 4
  | GLTFType.MAT3 => 9
  | GLTFType.MAT4 => 16

/-- Embeds the first `switch` of `gltfVertexType`: component-type code to the
base scalar kind string; the `default` branch throws (DOUBLE = 5130 included). -/
def gltfVertexBase (componentType : ℕ) : Except String String :=
  if componentType = 5120 then Except.ok "sint8"
  else if componentType = 5121 then Except.ok "uint8"
  else if componentType = 5122 then Except.ok "sint16"
  else if componentType = 5123 then Except.ok "uint16"
  else if componentType = 5124 then Except.ok "int32"
  else if componentType = 5125 then Except.ok "uint32"
  else if componentType = 5126 then Except.ok "float32"
  else Except.error ("Unrecognized or unsupported glTF type " ++ toString componentType)

/-- Embeds `gltfVertexType(componentType, type)`: base scalar kind plus an
arity suffix; arities other than 1..4 throw. -/
def gltfVertexType (componentType : ℕ) (type : GLTFType) : Except String String := do
  let typeStr ← gltfVertexBase componentType
  let n := gltfTypeNumComponents type
  if n = 1 then Except.ok typeStr
  else if n = 2 then Except.ok (typeStr ++ "x2")
  else if n = 3 then Except.ok (typeStr ++ "x3")
  else if n = 4 then Except.ok (typeStr ++ "x4")
  else Except.error "Invalid number of components for gltfType"

/-- Embeds the `componentSize` switch of `gltfTypeSize`: component-type code
to component byte width; the `default` branch throws. -/
def gltfComponentSize (componentType : ℕ) : Except String ℕ :=
  if componentType = 5120 then Except.ok 1
  else if componentType = 5121 then Except.ok 1
  else if componentType = 5122 then Except.ok 2
  else if componentType = 5123 then Except.ok 2
  else if componentType = 5124 then Except.ok 4
  else if componentType = 5125 then Except.ok 4
  else if componentType = 5126 then Except.ok 4
  else if componentType = 5130 then Except.ok 8
  else Except.error "Unrecognized GLTF Component Type?"

/-- Embeds `gltfTypeSize(componentType, type)`:
`gltfTypeNumComponents(type) * componentSize`. -/
def gltfTypeSize (componentType : ℕ) (type : GLTFType) : Except String ℕ := do
  let componentSize ← gltfComponentSize componentType
  Except.ok (gltfTypeNumComponents type * componentSize)

/-- A GPU buffer as observable after `upload`: its size, byte contents and
usage flags. -/
structure GpuBuffer where
  size : ℕ
  contents : List ℕ
  usage : ℕ
  deriving DecidableEq, Repr

/-- Embeds the `GLTFBufferView` object state: declared byte length, declared
stride (0 when absent), the borrowed bytes, the `needsUpload` flag, the
resident GPU buffer, and the accumulated usage bitmask. -/
structure GLTFBufferView where
  length : ℕ
  byteStride : ℕ
  view : List ℕ
  needsUpload : Bool
  gpuBuffer : Option GpuBuffer
  usage : ℕ
  deriving DecidableEq, Repr

/-- Embeds the `GLTFBufferView` constructor: stride and offset default to 0,
the view borrows `buffer[offset : offset+byteLength]` (JS `subarray` clamps),
`needsUpload` starts false, no GPU buffer, usage 0. -/
def mkGLTFBufferView (buffer : List ℕ) (byteLength : ℕ)
    (byteStrideOpt byteOffsetOpt : Option ℕ) : GLTFBufferView :=
  { length := byteLength
    byteStride := byteStrideOpt.getD 0
    view := (buffer.drop (byteOffsetOpt.getD 0)).take byteLength
    needsUpload := false
    gpuBuffer := none
    usage := 0 }

/-- Embeds `GLTFBufferView.addUsage(usage)`: bitwise-or accumulation. -/
def GLTFBufferView.addUsage (bv : GLTFBufferView) (usage : ℕ) : GLTFBufferView :=
  { bv with usage := bv.usage ||| usage }

/-- Embeds `GLTFBufferView.upload(device)`: allocates a buffer of size
`alignTo(byteLength, 4)` (zero-initialized, `mappedAtCreation`), copies the
view's bytes into its front, records it as resident and clears `needsUpload`.
The fresh GPU allocation is modelled by its observable content/size/usage. -/
def GLTFBufferView.upload (bv : GLTFBufferView) : GLTFBufferView :=
  { bv with
    gpuBuffer := some
      { size := alignTo bv.view.length 4
        contents := bv.view ++ List.replicate (alignTo bv.view.length 4 - bv.view.length) 0
        usage := bv.usage }
    needsUpload := false }

/-- Embeds the `GLTFAccessor` object: element count, raw component-type code,
parsed shape, the referenced view, and byte offset. -/
structure GLTFAccessor where
  count : ℕ
  componentType : ℕ
  gltfType : GLTFType
  view : GLTFBufferView
  byteOffset : ℕ
  deriving DecidableEq, Repr

/-- Embeds the `GLTFAccessor` constructor: parses the shape string (throwing
on unknown strings) and defaults `byteOffset` to 0. -/
def mkGLTFAccessor (view : GLTFBufferView) (count componentType : ℕ)
    (typeStr : String) (byteOffsetOpt : Option ℕ) : Except String GLTFAccessor := do
  let ty ← parseGltfType typeStr
  Except.ok
    { count := count
      componentType := componentType
      gltfType := ty
      view := view
      byteOffset := byteOffsetOpt.getD 0 }

/-- Embeds the `byteStride` getter:
`Math.max(gltfTypeSize(componentType, gltfType), view.byteStride)`;
propagates the throw of `gltfTypeSize` on an unknown component code. -/
def GLTFAccessor.byteStrideE (a : GLTFAccessor) : Except String ℕ := do
  let elementSize ← gltfTypeSize a.componentType a.gltfType
  Except.ok (max elementSize a.view.byteStride)

/-- Embeds the `byteLength` getter: `count * byteStride`. -/
def GLTFAccessor.byteLengthE (a : GLTFAccessor) : Except String ℕ := do
  let stride ← a.byteStrideE
  Except.ok (a.count * stride)

/-- Embeds the `vertexType` getter: `gltfVertexType(componentType, gltfType)`. -/
def GLTFAccessor.vertexTypeE (a : GLTFAccessor) : Except String String :=
  gltfVertexType a.componentType a.gltfType

/-- Embeds `GLTFTexture`: a reference to one image by pool index. -/
structure GLTFTexture where
  imageSource : ℕ
  deriving DecidableEq, Repr

/-- Embeds `GLTFImage` as observable by the pipeline builder: whether a GPU
texture view has been created for it. -/
structure GLTFImage where
  gpuTextureView : Option Unit
  deriving DecidableEq, Repr

/-- A JSON texture reference object such as `{"index": 3}`; the `index`
field may be absent. -/
structure TextureRefDesc where
  index : Option ℕ
  deriving DecidableEq, Repr

/-- The JSON `pbrMetallicRoughness` group consumed by the material
constructor; every field may be absent. -/
structure PbrDesc where
  baseColorTexture : Option TextureRefDesc
  baseColorFactor : Option (List ℚ)
  metallicRoughnessTexture : Option TextureRefDesc
  deriving DecidableEq, Repr

/-- The JSON material descriptor fields consumed by the `GLTFMaterial`
constructor. -/
structure MaterialDesc where
  name : String
  pbrMetallicRoughness : Option PbrDesc
  normalTexture : Option TextureRefDesc
  occlusionTexture : Option TextureRefDesc
  emissiveTexture : Option TextureRefDesc
  deriving DecidableEq, Repr

/-- Embeds the `GLTFMaterial` object. Each texture slot holds
`Option GLTFTexture` because the source assigns `textures[i]`, which is
JavaScript `undefined` (here `none`) when `i` is out of the pool's range. -/
structure GLTFMaterial where
  name : String
  baseColorTexture : Option GLTFTexture
  normalTexture : Option GLTFTexture
  occlusionTexture : Option GLTFTexture
  emissiveTexture : Option GLTFTexture
  metallicRoughnessTexture : Option GLTFTexture
  baseColorFactor : List ℚ
  deriving DecidableEq, Repr

/-- Embeds the `GLTFMaterial` constructor. Returns the material together with
the list of `console.warn` diagnostics it emitted. Field defaults, the
`pbrMetallicRoughness` branch (with its warning on a missing group and on a
base-color reference without an index), and the unconditional
normal/occlusion/emissive blocks follow the source line by line. -/
def mkGLTFMaterial (jsonParams : MaterialDesc) (textures : List GLTFTexture)
    (defaultNormalTexture defaultWhiteTexture defaultBlackTexture : GLTFTexture) :
    GLTFMaterial × List String :=
  let m0 : GLTFMaterial :=
    { name := jsonParams.name
      baseColorTexture := some defaultWhiteTexture
      metallicRoughnessTexture := some defaultBlackTexture
      normalTexture := some defaultNormalTexture
      occlusionTexture := some defaultWhiteTexture
      emissiveTexture := some defaultBlackTexture
      baseColorFactor := [1, 1, 1, 1] }
  let (m1, w1) :=
    match jsonParams.pbrMetallicRoughness with
    | some pbr =>
      let (mA, wA) :=
        match pbr.baseColorTexture with
        | some bct =>
          match bct.index with
          | some i => ({ m0 with baseColorTexture := textures[i]? }, ([] : List String))
          | none => (m0, ["Cannot read baseColorTexture index for material " ++ jsonParams.name])
        | none => (m0, [])
      let mB :=
        match pbr.baseColorFactor with
        | some f => { mA with baseColorFactor := f }
        | none => mA
      let mC :=
        match pbr.metallicRoughnessTexture with
        | some mrt =>
          match mrt.index with
          | some i => { mB with metallicRoughnessTexture := textures[i]? }
          | none => mB
        | none => mB
      (mC, wA)
    | none => (m0, ["Unsupported material type " ++ jsonParams.name])
  let m2 :=
    match jsonParams.normalTexture with
    | some nt =>
      match nt.index with
      | some i => { m1 with normalTexture := textures[i]? }
      | none => m1
    | none => m1
  let m3 :=
    match jsonParams.occlusionTexture with
    | some ot =>
      match ot.index with
      | some i => { m2 with occlusionTexture := textures[i]? }
      | none => m2
    | none => m2
  let m4 :=
    match jsonParams.emissiveTexture with
    | some et =>
      match et.index with
      | some i => { m3 with emissiveTexture := textures[i]? }
      | none => m3
    | none => m3
  (m4, w1)

/-- Embeds the `GLTFPrimitive` object's loader-visible fields. The material
slot is an `Option` because `materials[prim.material]` is `undefined` (here
`none`) when the material index is absent or out of range; the constructor
performs no material check. -/
structure GLTFPrimitive where
  positions : GLTFAccessor
  normals : GLTFAccessor
  UVs : GLTFAccessor
  indices : GLTFAccessor
  topology : ℕ
  material : Option GLTFMaterial
  deriving DecidableEq, Repr

/-- Embeds `GLTFMesh`: named ordered primitive list. -/
structure GLTFMesh where
  name : String
  primitives : List GLTFPrimitive
  deriving DecidableEq, Repr

/-- One JSON primitive descriptor as consumed by the mesh-assembly loop of
`uploadGLB`: optional numeric `mode`, optional `indices` accessor index,
the attribute dictionary in iteration order, optional `material` index. -/
structure PrimDesc where
  mode : Option ℕ
  indices : Option ℕ
  attributes : List (String × ℕ)
  material : Option ℕ
  deriving DecidableEq, Repr

/-- Embeds the `for (let attr in prim["attributes"])` loop: later entries for
the same attribute name overwrite earlier ones, and an out-of-range accessor
index assigns `undefined` (`none`). Returns (positions, normals, UVs). -/
def findAttrs (accessors : List GLTFAccessor) (attrs : List (String × ℕ)) :
    Option GLTFAccessor × Option GLTFAccessor × Option GLTFAccessor :=
  attrs.foldl
    (fun st kv =>
      if kv.1 == "POSITION" then (accessors[kv.2]?, st.2.1, st.2.2)
      else if kv.1 == "NORMAL" then (st.1, accessors[kv.2]?, st.2.2)
      else if kv.1 == "TEXCOORD_0" then (st.1, st.2.1, accessors[kv.2]?)
      else st)
    (none, none, none)

/-- Embeds one iteration of the mesh-assembly loop in `uploadGLB` for a
single primitive descriptor: default the topology to 4 (triangles), skip
with a diagnostic when it is neither 4 nor 5, resolve the optional indices
accessor and the POSITION/NORMAL/TEXCOORD_0 attributes, and push a primitive
only when all four are resolved, otherwise warn about missing components.
Returns the optional primitive plus emitted diagnostics. -/
def mkMeshPrimitive (accessors : List GLTFAccessor) (materials : List GLTFMaterial)
    (prim : PrimDesc) : Option GLTFPrimitive × List String :=
  let topology := prim.mode.getD 4
  if topology ≠ 4 ∧ topology ≠ 5 then
    (none, ["Unsupported primitive mode"])
  else
    let indices := prim.indices.bind (fun i => accessors[i]?)
    let (positions, normals, UVs) := findAttrs accessors prim.attributes
    match positions, normals, UVs, indices with
    | some p, some n, some u, some ix =>
      (some
        { positions := p
          normals := n
          UVs := u
          indices := ix
          topology := topology
          material := prim.material.bind (fun i => materials[i]?) }, [])
    | _, _, _, _ => (none, ["Primitive has missing components in mesh"])

/-- Embeds the whole per-mesh primitive loop: accumulated primitive list and
accumulated diagnostics, in order. -/
def loadMeshPrimitives (accessors : List GLTFAccessor) (materials : List GLTFMaterial)
    (prims : List PrimDesc) : List GLTFPrimitive × List String :=
  match prims with
  | [] => ([], [])
  | d :: rest =>
    ((mkMeshPrimitive accessors materials d).1.toList
        ++ (loadMeshPrimitives accessors materials rest).1,
      (mkMeshPrimitive accessors materials d).2
        ++ (loadMeshPrimitives accessors materials rest).2)

/-- Embeds `GLTFScene.getGpuTextureView(texture)` as invoked on a material
texture slot: accessing `.imageSource` on an `undefined` texture throws a
TypeError, an out-of-range image index makes `.gpuTextureView` access throw,
and a missing GPU view throws `no gpuTextureView on texture`. -/
def getGpuTextureView (images : List GLTFImage) (texture : Option GLTFTexture) :
    Except String Unit :=
  match texture with
  | none => Except.error "TypeError: cannot read imageSource of undefined"
  | some t =>
    match images[t.imageSource]? with
    | none => Except.error "TypeError: cannot read gpuTextureView of undefined"
    | some img =>
      match img.gpuTextureView with
      | none => Except.error "no gpuTextureView on texture"
      | some _ => Except.ok ()

/-- Embeds `GLTFPrimitive.buildRenderPipelinePrim` up to its effects that can
fail, in source order: the material null check, the three vertex-format
derivations (attribute descriptors), the three effective strides (buffer
descriptors), the topology check with the strip index format, and the five
material texture-view lookups. GPU object construction itself cannot fail
and is modelled as producing `Unit`. -/
def buildRenderPipelinePrim (images : List GLTFImage) (p : GLTFPrimitive) :
    Except String Unit := do
  match p.material with
  | none => Except.error "No material on mesh"
  | some material => do
    let _posFmt ← p.positions.vertexTypeE
    let _normFmt ← p.normals.vertexTypeE
    let _uvFmt ← p.UVs.vertexTypeE
    let _posStride ← p.positions.byteStrideE
    let _normStride ← p.normals.byteStrideE
    let _uvStride ← p.UVs.byteStrideE
    if p.topology = 4 then
      Except.ok ()
    else if p.topology = 5 then do
      let _stripIndexFormat ← p.indices.vertexTypeE
      Except.ok ()
    else
      Except.error "Unsupported glTF topology"
    let _ ← getGpuTextureView images material.baseColorTexture
    let _ ← getGpuTextureView images material.normalTexture
    let _ ← getGpuTextureView images material.occlusionTexture
    let _ ← getGpuTextureView images material.emissiveTexture
    let _ ← getGpuTextureView images material.metallicRoughnessTexture
    Except.ok ()

/-- Embeds `GLTFMesh.buildRenderPipelineMesh`: builds each primitive's
pipeline in order; the first thrown error unwinds the whole loop. -/
def buildMeshPipelines (images : List GLTFImage) :
    List GLTFPrimitive → Except String Unit
  | [] => Except.ok ()
  | p :: rest => do
    let _ ← buildRenderPipelinePrim images p
    buildMeshPipelines images rest

/-- A 4x4 column-major matrix over exact rationals, mirroring the gl-matrix
`mat4` layout: `e0..e3` are column 0 (rows 0..3), `e4..e7` column 1, and so
on. JavaScript float arithmetic is modelled exactly. -/
@[ext]
structure Mat4 where
  e0 : ℚ
  e1 : ℚ
  e2 : ℚ
  e3 : ℚ
  e4 : ℚ
  e5 : ℚ
  e6 : ℚ
  e7 : ℚ
  e8 : ℚ
  e9 : ℚ
  e10 : ℚ
  e11 : ℚ
  e12 : ℚ
  e13 : ℚ
  e14 : ℚ
  e15 : ℚ
  deriving DecidableEq, Repr

/-- Embeds `mat4.create()`: the identity matrix. -/
def Mat4.identity : Mat4 :=
  { e0 := 1, e1 := 0, e2 := 0, e3 := 0
    e4 := 0, e5 := 1, e6 := 0, e7 := 0
    e8 := 0, e9 := 0, e10 := 1, e11 := 0
    e12 := 0, e13 := 0, e14 := 0, e15 := 1 }

/-- Embeds gl-matrix `mat4.multiply(out, a, b)`: column-major matrix product
`a * b`, entry `out[4*j+i] = sum over k of b[4*j+k] * a[4*k+i]`, written out
exactly as the library does. -/
def Mat4.mul (a b : Mat4) : Mat4 :=
  { e0 := b.e0 * a.e0 + b.e1 * a.e4 + b.e2 * a.e8 + b.e3 * a.e12
    e1 := b.e0 * a.e1 + b.e1 * a.e5 + b.e2 * a.e9 + b.e3 * a.e13
    e2 := b.e0 * a.e2 + b.e1 * a.e6 + b.e2 * a.e10 + b.e3 * a.e14
    e3 := b.e0 * a.e3 + b.e1 * a.e7 + b.e2 * a.e11 + b.e3 * a.e15
    e4 := b.e4 * a.e0 + b.e5 * a.e4 + b.e6 * a.e8 + b.e7 * a.e12
    e5 := b.e4 * a.e1 + b.e5 * a.e5 + b.e6 * a.e9 + b.e7 * a.e13
    e6 := b.e4 * a.e2 + b.e5 * a.e6 + b.e6 * a.e10 + b.e7 * a.e14
    e7 := b.e4 * a.e3 + b.e5 * a.e7 + b.e6 * a.e11 + b.e7 * a.e15
    e8 := b.e8 * a.e0 + b.e9 * a.e4 + b.e10 * a.e8 + b.e11 * a.e12
    e9 := b.e8 * a.e1 + b.e9 * a.e5 + b.e10 * a.e9 + b.e11 * a.e13
    e10 := b.e8 * a.e2 + b.e9 * a.e6 + b.e10 * a.e10 + b.e11 * a.e14
    e11 := b.e8 * a.e3 + b.e9 * a.e7 + b.e10 * a.e11 + b.e11 * a.e15
    e12 := b.e12 * a.e0 + b.e13 * a.e4 + b.e14 * a.e8 + b.e15 * a.e12
    e13 := b.e12 * a.e1 + b.e13 * a.e5 + b.e14 * a.e9 + b.e15 * a.e13
    e14 := b.e12 * a.e2 + b.e13 * a.e6 + b.e14 * a.e10 + b.e15 * a.e14
    e15 := b.e12 * a.e3 + b.e13 * a.e7 + b.e14 * a.e11 + b.e15 * a.e15 }

/-- Embeds gl-matrix `mat4.fromRotationTranslationScale(out, q, v, s)` with
quaternion `q = (x, y, z, w)`, translation `v` and scale `s`, entry for
entry as the library computes it. -/
def Mat4.fromRotationTranslationScale (q : ℚ × ℚ × ℚ × ℚ) (v : ℚ × ℚ × ℚ)
    (s : ℚ × ℚ × ℚ) : Mat4 :=
  let x := q.1
  let y := q.2.1
  let z := q.2.2.1
  let w := q.2.2.2
  let xx := x * (x + x)
  let xy := x * (y + y)
  let xz := x * (z + z)
  let yy := y * (y + y)
  let yz := y * (z + z)
  let zz := z * (z + z)
  let wx := w * (x + x)
  let wy := w * (y + y)
  let wz := w * (z + z)
  { e0 := (1 - (yy + zz)) * s.1
    e1 := (xy + wz) * s.1
    e2 := (xz - wy) * s.1
    e3 := 0
    e4 := (xy - wz) * s.2.1
    e5 := (1 - (xx + zz)) * s.2.1
    e6 := (yz + wx) * s.2.1
    e7 := 0
    e8 := (xz + wy) * s.2.2
    e9 := (yz - wx) * s.2.2
    e10 := (1 - (xx + yy)) * s.2.2
    e11 := 0
    e12 := v.1
    e13 := v.2.1
    e14 := v.2.2
    e15 := 1 }

/-- The translation matrix of the spec's transform decomposition: identity
with the translation vector in the fourth column. -/
def Mat4.translationOf (v : ℚ × ℚ × ℚ) : Mat4 :=
  { Mat4.identity with e12 := v.1, e13 := v.2.1, e14 := v.2.2 }

/-- The non-uniform scale matrix of the spec's transform decomposition. -/
def Mat4.scaleOf (s : ℚ × ℚ × ℚ) : Mat4 :=
  { Mat4.identity with e0 := s.1, e5 := s.2.1, e10 := s.2.2 }

/-- The rotation matrix of a quaternion `(x, y, z, w)`, textbook column-major
form, as the spec's transform decomposition uses it. -/
def Mat4.rotationOf (q : ℚ × ℚ × ℚ × ℚ) : Mat4 :=
  let x := q.1
  let y := q.2.1
  let z := q.2.2.1
  let w := q.2.2.2
  { e0 := 1 - 2 * y * y - 2 * z * z
    e1 := 2 * x * y + 2 * w * z
    e2 := 2 * x * z - 2 * w * y
    e3 := 0
    e4 := 2 * x * y - 2 * w * z
    e5 := 1 - 2 * x * x - 2 * z * z
    e6 := 2 * y * z + 2 * w * x
    e7 := 0
    e8 := 2 * x * z + 2 * w * y
    e9 := 2 * y * z - 2 * w * x
    e10 := 1 - 2 * x * x - 2 * y * y
    e11 := 0
    e12 := 0, e13 := 0, e14 := 0, e15 := 1 }

/-- The JSON fields of one scene node consumed by `readNodeTransform` and
`flattenTree`: an optional explicit column-major matrix, optional TRS
fields, an optional mesh index, and the node's name. -/
structure NodeData where
  matrix : Option Mat4
  scale : Option (ℚ × ℚ × ℚ)
  rotation : Option (ℚ × ℚ × ℚ × ℚ)
  translation : Option (ℚ × ℚ × ℚ)
  mesh : Option ℕ
  name : String
  deriving DecidableEq, Repr

/-- The claim's finite acyclic node hierarchy: the glTF node graph restricted
to a root's subtree, with the `children` index lists resolved to subtrees. -/
inductive NodeTree where
  | node (data : NodeData) (children : List NodeTree)

/-- The data record of a tree's root node. -/
def NodeTree.rootData : NodeTree → NodeData
  | NodeTree.node d _ => d

/-- Embeds `readNodeTransform(node)`: the supplied matrix verbatim when
present (`mat4.fromValues` on a column-major array is the identity
embedding), otherwise `mat4.fromRotationTranslationScale` on the TRS fields
with defaults scale `(1,1,1)`, rotation `(0,0,0,1)`, translation `(0,0,0)`. -/
def readNodeTransform (node : NodeData) : Mat4 :=
  match node.matrix with
  | some m => m
  | none =>
    Mat4.fromRotationTranslationScale
      (node.rotation.getD (0, 0, 0, 1))
      (node.translation.getD (0, 0, 0))
      (node.scale.getD (1, 1, 1))

/-- One entry of the flattened node list: the object
`{ matrix: tfm, mesh: node["mesh"] }` pushed by `flattenTree`. -/
structure FlatNode where
  matrix : Mat4
  mesh : Option ℕ
  deriving DecidableEq, Repr

mutual

/-- Embeds `flattenTree(allNodes, node, parent_transform)` on the resolved
subtree: compute the local transform, pre-multiply by the parent transform
when one is present (at the root the source passes `null`, which skips the
multiplication), emit the node's entry, then recurse into the children in
order, spreading their entries after it. -/
def flattenTree : Option Mat4 → NodeTree → List FlatNode
  | none, NodeTree.node d cs =>
    { matrix := readNodeTransform d, mesh := d.mesh }
      :: flattenTreeChildren (readNodeTransform d) cs
  | some p, NodeTree.node d cs =>
    { matrix := Mat4.mul p (readNodeTransform d), mesh := d.mesh }
      :: flattenTreeChildren (Mat4.mul p (readNodeTransform d)) cs

/-- The `for` loop over `node["children"]` inside `flattenTree`. -/
def flattenTreeChildren : Mat4 → List NodeTree → List FlatNode
  | _, [] => []
  | tfm, c :: rest => flattenTree (some tfm) c ++ flattenTreeChildren tfm rest

end

/-- Modelled from the spec's words: the local transform is the supplied
column-major matrix when present, otherwise composed from translation,
rotation and scale in the fixed order scale, then rotate, then translate,
that is the matrix product T * (R * S). -/
def specLocalTransform (d : NodeData) : Mat4 :=
  match d.matrix with
  | some m => m
  | none =>
    Mat4.mul (Mat4.translationOf (d.translation.getD (0, 0, 0)))
      (Mat4.mul (Mat4.rotationOf (d.rotation.getD (0, 0, 0, 1)))
        (Mat4.scaleOf (d.scale.getD (1, 1, 1))))

mutual

/-- Modelled from the spec's words for claim comparison: a depth-first
pre-order traversal that emits, for each node, the parent's absolute
transform multiplied by the node's local transform, where the local
transform is the supplied matrix verbatim or else the product
translation x rotation x scale (scale applied first). -/
def specFlatten (parentAbs : Mat4) : NodeTree → List FlatNode
  | NodeTree.node d cs =>
    let abs := Mat4.mul parentAbs (specLocalTransform d)
    { matrix := abs, mesh := d.mesh } :: specFlattenChildren abs cs

/-- Pre-order child traversal of `specFlatten`. -/
def specFlattenChildren (parentAbs : Mat4) : List NodeTree → List FlatNode
  | [] => []
  | c :: rest => specFlatten parentAbs c ++ specFlattenChildren parentAbs rest

end

mutual

/-- The number of nodes of a subtree. -/
def treeSize : NodeTree → ℕ
  | NodeTree.node _ cs => 1 + treeSizeList cs

/-- The number of nodes of a forest. -/
def treeSizeList : List NodeTree → ℕ
  | [] => 0
  | c :: rest => treeSize c + treeSizeList rest

end

/-- A renderable scene node as built by `uploadGLB`: `new GLTFNode(n["name"],
fn["matrix"], meshes[fn["mesh"]])` where `n` is the scene root the entry was
flattened from; an out-of-range mesh index stores `undefined` (`none`). -/
structure GLTFNode where
  name : String
  transform : Mat4
  mesh : Option GLTFMesh
  deriving DecidableEq, Repr

/-- Embeds the per-root part of the default-scene loop of `uploadGLB`:
flatten the root with a `null` parent transform, keep the entries whose
`mesh` field is defined, and build each renderable node with the root's
name, the entry's matrix and the looked-up mesh. -/
def sceneNodesFromRoot (meshes : List GLTFMesh) (root : NodeTree) : List GLTFNode :=
  (flattenTree none root).filterMap
    (fun fn =>
      match fn.mesh with
      | some mi => some { name := root.rootData.name, transform := fn.matrix, mesh := meshes[mi]? }
      | none => none)

/-- Embeds the full default-scene node loop: concatenation over the scene's
root nodes. -/
def buildDefaultNodes (meshes : List GLTFMesh) (roots : List NodeTree) : List GLTFNode :=
  match roots with
  | [] => []
  | r :: rest => sceneNodesFromRoot meshes r ++ buildDefaultNodes meshes rest

/-- Embeds `GLTFNode.buildRenderPipelineNode` followed by
`GLTFMesh.buildRenderPipelineMesh`: a node whose stored mesh is `undefined`
throws a TypeError when its mesh is dereferenced; otherwise every primitive
pipeline of the mesh is built. -/
def buildNodePipeline (images : List GLTFImage) (n : GLTFNode) : Except String Unit :=
  match n.mesh with
  | none => Except.error "TypeError: cannot read buildRenderPipelineMesh of undefined"
  | some m => buildMeshPipelines images m.primitives

/-- Embeds `GLTFScene.buildRenderPipeline`: builds every node's pipelines in
order; the first thrown error unwinds out of the whole scene loop. -/
def buildScenePipelines (images : List GLTFImage) :
    List GLTFNode → Except String Unit
  | [] => Except.ok ()
  | n :: rest => do
    let _ ← buildNodePipeline images n
    buildScenePipelines images rest

/-- The WebGPU `GPUBufferUsage.INDEX` flag. -/
def gpuUsageINDEX : ℕ := 16

/-- The WebGPU `GPUBufferUsage.VERTEX` flag. -/
def gpuUsageVERTEX : ℕ := 32

/-- The state update `view.needsUpload = true; view.addUsage(flag)` performed
by the `GLTFPrimitive` constructor on the buffer view at index `j` of the
shared buffer-view list (JavaScript aliasing is modelled by indexing into
the one list). An out-of-range index changes nothing. -/
def bumpView : List GLTFBufferView → ℕ → ℕ → List GLTFBufferView
  | [], _, _ => []
  | v :: rest, 0, flag => { v with needsUpload := true, usage := v.usage ||| flag } :: rest
  | v :: rest, j + 1, flag => v :: bumpView rest j flag

/-- One `GLTFPrimitive` constructor call as it affects the buffer-view list:
the view indices of its positions, normals, UVs and indices accessors. -/
structure PrimReg where
  positions : ℕ
  normals : ℕ
  UVs : ℕ
  indices : ℕ

/-- Embeds the usage registrations of one `GLTFPrimitive` constructor:
positions, normals and UVs views get `needsUpload = true` plus the VERTEX
flag, the indices view gets `needsUpload = true` plus the INDEX flag. -/
def applyPrimReg (views : List GLTFBufferView) (r : PrimReg) : List GLTFBufferView :=
  bumpView (bumpView (bumpView (bumpView views r.positions gpuUsageVERTEX)
    r.normals gpuUsageVERTEX) r.UVs gpuUsageVERTEX) r.indices gpuUsageINDEX

/-- All primitive constructor registrations of a load, in order. -/
def applyPrimRegs (views : List GLTFBufferView) : List PrimReg → List GLTFBufferView
  | [] => views
  | r :: rest => applyPrimRegs (applyPrimReg views r) rest

/-- Embeds one iteration of the upload loop of `uploadGLB`:
`if (bufferViews[i].needsUpload) bufferViews[i].upload(device)`. The boolean
records whether `upload` was invoked on this view. -/
def uploadStep (v : GLTFBufferView) : GLTFBufferView × Bool :=
  if v.needsUpload then (v.upload, true) else (v, false)

/-- The GLB load aborts either with one of the explicit `throw Error(...)`
format checks or with an error a JavaScript builtin raises: `RangeError`
from a typed-array constructor whose range or alignment is invalid, or
`SyntaxError` from `JSON.parse`. -/
inductive LoadErr where
  | formatError (msg : String)
  | rangeError
  | syntaxError
  deriving DecidableEq, Repr

/-- Whether a load outcome is a failure with a format error (one of the
loader's own `throw Error` aborts). -/
def isFormatError (r : Except LoadErr Unit) : Bool :=
  match r with
  | Except.error (LoadErr.formatError _) => true
  | _ => false

/-- Reads the little-endian 32-bit word at byte offset `i`; callers guard
the range as the typed-array constructors do. -/
def readU32 (buf : List ℕ) (i : ℕ) : ℕ :=
  buf.getD i 0 + 256 * buf.getD (i + 1) 0 + 65536 * buf.getD (i + 2) 0
    + 16777216 * buf.getD (i + 3) 0

/-- Whether a byte is JSON whitespace. -/
def jsonIsWs (b : ℕ) : Bool :=
  b == 0x20 || b == 0x09 || b == 0x0A || b == 0x0D

/-- Drops leading JSON whitespace. -/
def jsonSkipWs : List ℕ → List ℕ
  | [] => []
  | b :: rest => if jsonIsWs b then jsonSkipWs rest else b :: rest

/-- Whether a byte is an ASCII decimal digit. -/
def jsonIsDigit (b : ℕ) : Bool :=
  0x30 ≤ b && b ≤ 0x39

/-- Whether a byte is an ASCII hexadecimal digit. -/
def jsonIsHex (b : ℕ) : Bool :=
  jsonIsDigit b || (0x41 ≤ b && b ≤ 0x46) || (0x61 ≤ b && b ≤ 0x66)

/-- Consumes one or more decimal digits; fails on zero digits. -/
def jsonDigits1 (bs : List ℕ) : Option (List ℕ) :=
  match bs with
  | b :: rest => if jsonIsDigit b then some (rest.dropWhile jsonIsDigit) else none
  | [] => none

/-- Consumes the exponent part of a JSON number after the `e` or `E`. -/
def jsonExpRest (bs : List ℕ) : Option (List ℕ) :=
  match bs with
  | b :: rest =>
    if b == 0x2B || b == 0x2D then jsonDigits1 rest else jsonDigits1 bs
  | [] => none

/-- Consumes the optional fraction and exponent after a JSON integer part. -/
def jsonFracExp (bs : List ℕ) : Option (List ℕ) := do
  let afterFrac ←
    match bs with
    | 0x2E :: rest => jsonDigits1 rest
    | _ => some bs
  match afterFrac with
  | b :: rest => if b == 0x65 || b == 0x45 then jsonExpRest rest else some afterFrac
  | [] => some afterFrac

/-- Consumes one JSON number (grammar of `JSON.parse`): optional minus, an
integer part that is `0` or starts with a nonzero digit, optional fraction,
optional exponent. -/
def jsonNumber (bs : List ℕ) : Option (List ℕ) :=
  let afterSign :=
    match bs with
    | 0x2D :: rest => rest
    | _ => bs
  match afterSign with
  | 0x30 :: rest => jsonFracExp rest
  | b :: rest =>
    if jsonIsDigit b then jsonFracExp (rest.dropWhile jsonIsDigit) else none
  | [] => none

/-- Consumes the remainder of a JSON string after the opening quote: any
byte at or above `0x20` except quote and backslash, the simple escapes, and
four-hex-digit unicode escapes. UTF-8 decoding never fails in the source
(`TextDecoder` substitutes replacement characters), so string contents are
checked at the byte level. -/
def jsonStringRest : List ℕ → Option (List ℕ)
  | [] => none
  | 0x22 :: rest => some rest
  | 0x5C :: e :: rest =>
    if e == 0x22 || e == 0x5C || e == 0x2F || e == 0x62 || e == 0x66
        || e == 0x6E || e == 0x72 || e == 0x74 then
      jsonStringRest rest
    else if e == 0x75 then
      match rest with
      | h1 :: h2 :: h3 :: h4 :: rest2 =>
        if jsonIsHex h1 && jsonIsHex h2 && jsonIsHex h3 && jsonIsHex h4 then
          jsonStringRest rest2
        else none
      | _ => none
    else none
  | b :: rest => if 0x20 ≤ b then jsonStringRest rest else none

/-- Which production of the JSON grammar the recognizer is currently in. -/
inductive JsonMode where
  | value
  | objectBody
  | objectMembers
  | arrayBody
  | arrayItems
  deriving DecidableEq, Repr

/-- Fuel-indexed recognizer for the JSON grammar accepted by `JSON.parse`:
in `value` mode it consumes one JSON value (string, object, array, the
three literals, or a number), the body modes handle object member lists and
array item lists; returns the unconsumed suffix. -/
def jsonRun : ℕ → JsonMode → List ℕ → Option (List ℕ)
  | 0, _, _ => none
  | _ + 1, JsonMode.value, [] => none
  | fuel + 1, JsonMode.value, b :: rest =>
    if b == 0x22 then jsonStringRest rest
    else if b == 0x7B then jsonRun fuel JsonMode.objectBody (jsonSkipWs rest)
    else if b == 0x5B then jsonRun fuel JsonMode.arrayBody (jsonSkipWs rest)
    else if b == 0x74 then
      match rest with
      | 0x72 :: 0x75 :: 0x65 :: rest2 => some rest2
      | _ => none
    else if b == 0x66 then
      match rest with
      | 0x61 :: 0x6C :: 0x73 :: 0x65 :: rest2 => some rest2
      | _ => none
    else if b == 0x6E then
      match rest with
      | 0x75 :: 0x6C :: 0x6C :: rest2 => some rest2
      | _ => none
    else jsonNumber (b :: rest)
  | fuel + 1, JsonMode.objectBody, bs =>
    match bs with
    | 0x7D :: rest => some rest
    | _ => jsonRun fuel JsonMode.objectMembers bs
  | fuel + 1, JsonMode.objectMembers, bs => do
    let afterKey ←
      match bs with
      | 0x22 :: rest => jsonStringRest rest
      | _ => none
    let afterColon ←
      match jsonSkipWs afterKey with
      | 0x3A :: rest => some (jsonSkipWs rest)
      | _ => none
    let afterVal ← jsonRun fuel JsonMode.value afterColon
    match jsonSkipWs afterVal with
    | 0x2C :: rest => jsonRun fuel JsonMode.objectMembers (jsonSkipWs rest)
    | 0x7D :: rest => some rest
    | _ => none
  | fuel + 1, JsonMode.arrayBody, bs =>
    match bs with
    | 0x5D :: rest => some rest
    | _ => jsonRun fuel JsonMode.arrayItems bs
  | fuel + 1, JsonMode.arrayItems, bs => do
    let afterVal ← jsonRun fuel JsonMode.value bs
    match jsonSkipWs afterVal with
    | 0x2C :: rest => jsonRun fuel JsonMode.arrayItems (jsonSkipWs rest)
    | 0x5D :: rest => some rest
    | _ => none

/-- Models the default-options `TextDecoder`'s BOM handling: a single
leading UTF-8 byte-order mark (EF BB BF) is stripped before the decoded
text is produced. -/
def stripUtf8Bom (bs : List ℕ) : List ℕ :=
  match bs with
  | 0xEF :: 0xBB :: 0xBF :: rest => rest
  | _ => bs

/-- Models `JSON.parse(new TextDecoder("utf-8").decode(bytes))` succeeding:
after the decoder's leading-BOM stripping, the byte sequence is one JSON
value surrounded by whitespace. The fuel bound dominates the recognizer's
call-chain depth on the input. -/
def jsonParses (bs : List ℕ) : Bool :=
  match jsonRun (2 * bs.length + 8) JsonMode.value (jsonSkipWs (stripUtf8Bom bs)) with
  | some rest => jsonSkipWs rest == []
  | none => false

/-- The loader's message for a first chunk that is not JSON-tagged. -/
def jsonChunkErrMsg : String :=
  "Invalid glB: The first chunk of the glB file is not a JSON chunk!"

/-- Embeds the container-decode phase of `uploadGLB` (header and chunk
validation plus the JSON parse); the rest of the load runs only when this
phase returns without throwing. Typed-array constructions throw RangeError
when their byte range exceeds the buffer or their byte offset is unaligned,
exactly where the source constructs them. -/
def uploadGLBContainerPhase (buf : List ℕ) : Except LoadErr Unit :=
  if buf.length < 20 then Except.error LoadErr.rangeError
  else if readU32 buf 0 ≠ 0x46546C67 then
    Except.error (LoadErr.formatError "Provided file is not a glB file")
  else if readU32 buf 4 ≠ 2 then
    Except.error (LoadErr.formatError "Provided file is glTF 2.0 file")
  else if readU32 buf 16 ≠ 0x4E4F534A then
    Except.error (LoadErr.formatError jsonChunkErrMsg)
  else if buf.length < 20 + readU32 buf 12 then Except.error LoadErr.rangeError
  else if ¬ jsonParses ((buf.drop 20).take (readU32 buf 12)) then
    Except.error LoadErr.syntaxError
  else if (20 + readU32 buf 12) % 4 ≠ 0 ∨ buf.length < 20 + readU32 buf 12 + 8 then
    Except.error LoadErr.rangeError
  else if readU32 buf (24 + readU32 buf 12) ≠ 0x004E4942 then
    Except.error (LoadErr.formatError
      "Invalid glB: The second chunk of the glB file is not a binary chunk!")
  else Except.ok ()

/-- Claim C2 exactly as stated, at one buffer: the load fails with a
FormatError if and only if the magic word, the version word, the first
chunk's type tag or the second chunk's type tag (each read at its GLB layout
offset) mismatches its expected constant. -/
def claimC2At (buf : List ℕ) : Prop :=
  isFormatError (uploadGLBContainerPhase buf) = true ↔
    (readU32 buf 0 ≠ 0x46546C67 ∨ readU32 buf 4 ≠ 2 ∨ readU32 buf 16 ≠ 0x4E4F534A
      ∨ readU32 buf (24 + readU32 buf 12) ≠ 0x004E4942)

/-- The arity suffix the vertex-format derivation appends to the base
scalar kind (empty for scalars). -/
def vertexSuffix (n : ℕ) : String :=
  if n = 2 then "x2" else if n = 3 then "x3" else if n = 4 then "x4" else ""

/-!
### Theorems
-/

/-- Monadic bind on a successful `Except` computation reduces. -/
theorem ok_bind {ε α β : Type} (a : α) (f : α → Except ε β) :
    (do let x ← (Except.ok a : Except ε α); f x) = f a := rfl

/-- Monadic bind on a failed `Except` computation propagates the error. -/
theorem error_bind {ε α β : Type} (e : ε) (f : α → Except ε β) :
    (do let x ← (Except.error e : Except ε α); f x) = Except.error e := rfl

/-- C3: for every accessor whose component-type code is recognized (the
element size computation succeeds, yielding shape arity times component
width), the effective byte stride is the maximum of the element byte size
and the view's declared stride, hence at least the element byte size, and
the accessor's total byte length is its count times the effective stride. -/
theorem c3_effective_stride (a : GLTFAccessor) (es : ℕ)
    (h : gltfTypeSize a.componentType a.gltfType = Except.ok es) :
    (∃ w, gltfComponentSize a.componentType = Except.ok w
        ∧ es = gltfTypeNumComponents a.gltfType * w)
      ∧ a.byteStrideE = Except.ok (max es a.view.byteStride)
      ∧ es ≤ max es a.view.byteStride
      ∧ a.byteLengthE = Except.ok (a.count * max es a.view.byteStride) := by
  refine ⟨?_, ?_, le_max_left _ _, ?_⟩
  · cases hw : gltfComponentSize a.componentType with
    | error e => rw [gltfTypeSize, hw, error_bind] at h; exact absurd h (by simp)
    | ok w =>
      refine ⟨w, rfl, ?_⟩
      rw [gltfTypeSize, hw, ok_bind] at h
      exact (Except.ok.inj h).symm
  · rw [GLTFAccessor.byteStrideE, h, ok_bind]
  · rw [GLTFAccessor.byteLengthE, GLTFAccessor.byteStrideE, h, ok_bind, ok_bind]

/-- The concrete accessor for the C3 witness: float32 VEC3 elements (size
12) over a view with declared stride 16. -/
def accC3 : GLTFAccessor :=
  { count := 4
    componentType := 5126
    gltfType := GLTFType.VEC3
    view := mkGLTFBufferView [] 8 (some 16) none
    byteOffset := 0 }

/-- Witness for C3 at a concrete interleaved accessor. -/
theorem c3_effective_stride_witness :
    (∃ w, gltfComponentSize accC3.componentType = Except.ok w
        ∧ 12 = gltfTypeNumComponents accC3.gltfType * w)
      ∧ accC3.byteStrideE = Except.ok (max 12 accC3.view.byteStride)
      ∧ 12 ≤ max 12 accC3.view.byteStride
      ∧ accC3.byteLengthE = Except.ok (accC3.count * max 12 accC3.view.byteStride) :=
  c3_effective_stride accC3 12 rfl

/-- C4: the GPU vertex-format string is always the base scalar kind
concatenated with the arity suffix; unsigned-short VEC3 yields the
concatenation of "uint16" and "x3", and an accessor over a view with an
unset stride gets byte stride 6 for that type; double-precision components
(code 5130) are accepted by the size computation with component width 8 but
every vertex-format request for them fails. -/
theorem c4_vertex_format :
    (∀ (componentType : ℕ) (type : GLTFType) (s : String),
      gltfVertexType componentType type = Except.ok s →
        ∃ b, gltfVertexBase componentType = Except.ok b
          ∧ s = b ++ vertexSuffix (gltfTypeNumComponents type))
    ∧ gltfVertexType 5123 GLTFType.VEC3 = Except.ok ("uint16" ++ "x3")
    ∧ (∀ (buffer : List ℕ) (len : ℕ) (off : Option ℕ) (count : ℕ) (boff : Option ℕ)
        (a : GLTFAccessor),
        mkGLTFAccessor (mkGLTFBufferView buffer len none off) count 5123 "VEC3" boff
            = Except.ok a →
          a.byteStrideE = Except.ok 6)
    ∧ (∀ type, gltfTypeSize 5130 type = Except.ok (gltfTypeNumComponents type * 8))
    ∧ (∀ type, ∃ e, gltfVertexType 5130 type = Except.error e) := by
  refine ⟨?_, rfl, ?_, ?_, ?_⟩
  · intro componentType type s h
    cases hb : gltfVertexBase componentType with
    | error e =>
      rw [gltfVertexType, hb, error_bind] at h
      exact absurd h (by simp)
    | ok b =>
      refine ⟨b, rfl, ?_⟩
      rw [gltfVertexType, hb, ok_bind] at h
      cases type <;> norm_num [gltfTypeNumComponents] at h <;>
        simp_all [vertexSuffix, gltfTypeNumComponents, String.append_empty]
  · intro buffer len off count boff a h
    have hp : parseGltfType "VEC3" = Except.ok GLTFType.VEC3 := rfl
    rw [mkGLTFAccessor, hp, ok_bind] at h
    rw [← Except.ok.inj h]
    rfl
  · intro type
    cases type <;> rfl
  · intro type
    cases type <;> exact ⟨_, rfl⟩

/-- The accessor scenario D constructs: unsigned-short VEC3 over a view
with an unset stride. -/
def accC4 : GLTFAccessor :=
  { count := 3
    componentType := 5123
    gltfType := GLTFType.VEC3
    view := mkGLTFBufferView [] 6 none none
    byteOffset := 0 }

/-- Witness for C4: the concatenation shape at uint16 VEC3, and byte
stride 6 for the scenario-D accessor. -/
theorem c4_vertex_format_witness :
    (∃ b, gltfVertexBase 5123 = Except.ok b
      ∧ "uint16x3" = b ++ vertexSuffix (gltfTypeNumComponents GLTFType.VEC3))
    ∧ accC4.byteStrideE = Except.ok 6 :=
  ⟨c4_vertex_format.1 5123 GLTFType.VEC3 "uint16x3" rfl,
    c4_vertex_format.2.2.1 [] 6 none 3 none accC4 rfl⟩

/-- A usage bitmask with a nonzero flag or-ed in is nonzero. -/
theorem lor_flag_ne_zero (a flag : ℕ) (hf : flag ≠ 0) : a ||| flag ≠ 0 := by
  intro h
  rcases Nat.exists_most_significant_bit hf with ⟨k, hk, _⟩
  have hb : (a ||| flag).testBit k = true := by
    rw [Nat.testBit_lor]
    simp [hk]
  rw [h] at hb
  simp [Nat.zero_testBit] at hb

/-- `bumpView` preserves the invariant that a view marked for upload has a
nonzero usage bitmask. -/
theorem bumpView_inv (views : List GLTFBufferView) (j flag : ℕ) (hf : flag ≠ 0)
    (hinv : ∀ v ∈ views, v.needsUpload = true → v.usage ≠ 0) :
    ∀ v ∈ bumpView views j flag, v.needsUpload = true → v.usage ≠ 0 := by
  induction views generalizing j with
  | nil => intro v hv; simp [bumpView] at hv
  | cons w rest ih =>
    intro v hv
    cases j with
    | zero =>
      rw [bumpView] at hv
      rcases List.mem_cons.mp hv with h | h
      · subst h
        intro _
        exact lor_flag_ne_zero w.usage flag hf
      · exact hinv v (List.mem_cons_of_mem w h)
    | succ j' =>
      rw [bumpView] at hv
      rcases List.mem_cons.mp hv with h | h
      · subst h
        exact hinv v (List.mem_cons_self v rest)
      · exact ih j' (fun u hu => hinv u (List.mem_cons_of_mem w hu)) v h

/-- One primitive registration preserves the invariant. -/
theorem applyPrimReg_inv (views : List GLTFBufferView) (r : PrimReg)
    (hinv : ∀ v ∈ views, v.needsUpload = true → v.usage ≠ 0) :
    ∀ v ∈ applyPrimReg views r, v.needsUpload = true → v.usage ≠ 0 := by
  rw [applyPrimReg]
  exact bumpView_inv _ _ _ (by rw [gpuUsageINDEX]; omega)
    (bumpView_inv _ _ _ (by rw [gpuUsageVERTEX]; omega)
      (bumpView_inv _ _ _ (by rw [gpuUsageVERTEX]; omega)
        (bumpView_inv _ _ _ (by rw [gpuUsageVERTEX]; omega) hinv)))

/-- Any sequence of primitive registrations preserves the invariant. -/
theorem applyPrimRegs_inv (regs : List PrimReg) (views : List GLTFBufferView)
    (hinv : ∀ v ∈ views, v.needsUpload = true → v.usage ≠ 0) :
    ∀ v ∈ applyPrimRegs views regs, v.needsUpload = true → v.usage ≠ 0 := by
  induction regs generalizing views with
  | nil => exact hinv
  | cons r rest ih => exact ih (applyPrimReg views r) (applyPrimReg_inv views r hinv)

/-- C5: uploading a buffer view is idempotent on the view's resident GPU
state (a second `upload` recomputes the same resident buffer contents,
size and usage and leaves `needsUpload` false), and the upload loop of a
scene load never invokes `upload` on a view on which no primitive
registered a usage flag: starting from freshly constructed views and after
any sequence of primitive registrations, a view whose usage bitmask is
still zero is not marked `needsUpload`, so its loop iteration returns it
unchanged without invoking `upload`. -/
theorem c5_upload_idempotent_and_guarded :
    (∀ bv : GLTFBufferView, bv.upload.upload = bv.upload)
    ∧ (∀ (init : List GLTFBufferView),
        (∀ v ∈ init, v.usage = 0 ∧ v.needsUpload = false) →
        ∀ (regs : List PrimReg) (v : GLTFBufferView),
          v ∈ applyPrimRegs init regs → v.usage = 0 →
            v.needsUpload = false ∧ uploadStep v = (v, false)) := by
  constructor
  · intro bv
    rfl
  · intro init hfresh regs v hv husage
    have hinv : ∀ w ∈ init, w.needsUpload = true → w.usage ≠ 0 := by
      intro w hw hup
      rw [(hfresh w hw).2] at hup
      exact absurd hup (by simp)
    have hnu : v.needsUpload = false := by
      cases h : v.needsUpload with
      | false => rfl
      | true => exact absurd husage (applyPrimRegs_inv regs init hinv v hv h)
    refine ⟨hnu, ?_⟩
    rw [uploadStep, hnu]
    simp

/-- A freshly constructed buffer view for the C5 witness. -/
def bvC5 : GLTFBufferView := mkGLTFBufferView [1, 2, 3] 3 none none

/-- Witness for C5: the guarded-upload part applied to one fresh view with
no registrations. -/
theorem c5_upload_witness : bvC5.needsUpload = false ∧ uploadStep bvC5 = (bvC5, false) :=
  c5_upload_idempotent_and_guarded.2 [bvC5] (by decide) [] bvC5 (by decide) (by decide)

/-- C8: building a material whose descriptor has no metallic-roughness
block emits a warning and keeps the pure defaults for the affected
channels: the default white texture as base color, the default black
texture as metallic-roughness, and base-color factor (1, 1, 1, 1) —
whatever the other descriptor fields and the texture pool are. -/
theorem c8_material_defaults (nm : String) (nt ot et : Option TextureRefDesc)
    (textures : List GLTFTexture) (dn dw db : GLTFTexture) :
    (mkGLTFMaterial ⟨nm, none, nt, ot, et⟩ textures dn dw db).1.baseColorTexture = some dw
    ∧ (mkGLTFMaterial ⟨nm, none, nt, ot, et⟩ textures dn dw db).1.metallicRoughnessTexture
        = some db
    ∧ (mkGLTFMaterial ⟨nm, none, nt, ot, et⟩ textures dn dw db).1.baseColorFactor = [1, 1, 1, 1]
    ∧ ("Unsupported material type " ++ nm) ∈ (mkGLTFMaterial ⟨nm, none, nt, ot, et⟩
        textures dn dw db).2 := by
  rw [mkGLTFMaterial]
  rcases nt with _ | ⟨_ | i⟩ <;> rcases ot with _ | ⟨_ | j⟩ <;> rcases et with _ | ⟨_ | k⟩ <;>
    simp

/-- The default normal texture used in the C9 examples. -/
def texDN : GLTFTexture := ⟨10⟩

/-- The default white texture used in the C9 examples. -/
def texDW : GLTFTexture := ⟨11⟩

/-- The default black texture used in the C9 examples. -/
def texDB : GLTFTexture := ⟨12⟩

/-- A one-texture pool for the C9 counterexample. -/
def texsC9 : List GLTFTexture := [⟨0⟩]

/-- A material descriptor whose base-color texture index 5 is out of the
one-element texture pool's range. -/
def descC9 : MaterialDesc :=
  { name := "broken"
    pbrMetallicRoughness := some
      { baseColorTexture := some { index := some 5 }
        baseColorFactor := none
        metallicRoughnessTexture := none }
    normalTexture := none
    occlusionTexture := none
    emissiveTexture := none }

/-- Counterexample to C9: a present but out-of-range base-color texture
index yields an unresolved (`undefined`) texture, not the type-appropriate
default, and emits no warning at all — the claim promised a non-fatal
warning and the default. -/
theorem c9_counterexample :
    (mkGLTFMaterial descC9 texsC9 texDN texDW texDB).1.baseColorTexture = none
    ∧ (mkGLTFMaterial descC9 texsC9 texDN texDW texDB).1.baseColorTexture ≠ some texDW
    ∧ (mkGLTFMaterial descC9 texsC9 texDN texDW texDB).2 = [] := by
  refine ⟨rfl, ?_, rfl⟩
  decide

/-- C9 amended: a texture reference that is wholly absent falls back to the
channel's type-appropriate default, and a base-color reference present
without an index warns and keeps the default; but an index that is present
and out of the texture pool's range is assigned silently — the channel
becomes unresolved (`undefined`) rather than the default and no warning is
emitted. Material construction itself is total, so no load failure occurs
either way. -/
theorem c9_texture_fallback :
    (∀ (nm : String) (f : Option (List ℚ)) (mrt nt ot et : Option TextureRefDesc)
      (texs : List GLTFTexture) (dn dw db : GLTFTexture),
      (mkGLTFMaterial ⟨nm, some ⟨none, f, mrt⟩, nt, ot, et⟩ texs dn dw db).1.baseColorTexture
        = some dw)
    ∧ (∀ (nm : String) (f : Option (List ℚ)) (mrt nt ot et : Option TextureRefDesc)
      (texs : List GLTFTexture) (dn dw db : GLTFTexture),
      (mkGLTFMaterial ⟨nm, some ⟨some ⟨none⟩, f, mrt⟩, nt, ot, et⟩ texs dn dw
          db).1.baseColorTexture = some dw
      ∧ ("Cannot read baseColorTexture index for material " ++ nm)
          ∈ (mkGLTFMaterial ⟨nm, some ⟨some ⟨none⟩, f, mrt⟩, nt, ot, et⟩ texs dn dw db).2)
    ∧ (∀ (nm : String) (pbr : Option PbrDesc) (ot et : Option TextureRefDesc)
      (texs : List GLTFTexture) (dn dw db : GLTFTexture),
      (mkGLTFMaterial ⟨nm, pbr, none, ot, et⟩ texs dn dw db).1.normalTexture = some dn)
    ∧ (∀ (nm : String) (pbr : Option PbrDesc) (nt et : Option TextureRefDesc)
      (texs : List GLTFTexture) (dn dw db : GLTFTexture),
      (mkGLTFMaterial ⟨nm, pbr, nt, none, et⟩ texs dn dw db).1.occlusionTexture = some dw)
    ∧ (∀ (nm : String) (pbr : Option PbrDesc) (nt ot : Option TextureRefDesc)
      (texs : List GLTFTexture) (dn dw db : GLTFTexture),
      (mkGLTFMaterial ⟨nm, pbr, nt, ot, none⟩ texs dn dw db).1.emissiveTexture = some db)
    ∧ (∀ (nm : String) (bct : Option TextureRefDesc) (f : Option (List ℚ))
      (nt ot et : Option TextureRefDesc) (texs : List GLTFTexture) (dn dw db : GLTFTexture),
      (mkGLTFMaterial ⟨nm, some ⟨bct, f, none⟩, nt, ot, et⟩ texs dn dw
          db).1.metallicRoughnessTexture = some db)
    ∧ (∀ (nm : String) (i : ℕ) (texs : List GLTFTexture) (dn dw db : GLTFTexture),
      texs.length ≤ i →
        (mkGLTFMaterial ⟨nm, some ⟨some ⟨some i⟩, none, none⟩, none, none, none⟩ texs dn dw
            db).1.baseColorTexture = none
        ∧ (mkGLTFMaterial ⟨nm, some ⟨some ⟨some i⟩, none, none⟩, none, none, none⟩ texs dn dw
            db).2 = []) := by
  refine ⟨?_, ?_, ?_, ?_, ?_, ?_, ?_⟩
  · intro nm f mrt nt ot et texs dn dw db
    rw [mkGLTFMaterial]
    rcases f with _ | f <;> rcases mrt with _ | ⟨_ | i⟩ <;>
      rcases nt with _ | ⟨_ | j⟩ <;> rcases ot with _ | ⟨_ | k⟩ <;> rcases et with _ | ⟨_ | l⟩ <;>
      simp
  · intro nm f mrt nt ot et texs dn dw db
    rw [mkGLTFMaterial]
    rcases f with _ | f <;> rcases mrt with _ | ⟨_ | i⟩ <;>
      rcases nt with _ | ⟨_ | j⟩ <;> rcases ot with _ | ⟨_ | k⟩ <;> rcases et with _ | ⟨_ | l⟩ <;>
      simp
  · intro nm pbr ot et texs dn dw db
    rw [mkGLTFMaterial]
    rcases pbr with _ | ⟨_ | ⟨_ | i⟩, _ | f, _ | ⟨_ | m⟩⟩ <;>
      rcases ot with _ | ⟨_ | k⟩ <;> rcases et with _ | ⟨_ | l⟩ <;> simp
  · intro nm pbr nt et texs dn dw db
    rw [mkGLTFMaterial]
    rcases pbr with _ | ⟨_ | ⟨_ | i⟩, _ | f, _ | ⟨_ | m⟩⟩ <;>
      rcases nt with _ | ⟨_ | j⟩ <;> rcases et with _ | ⟨_ | l⟩ <;> simp
  · intro nm pbr nt ot texs dn dw db
    rw [mkGLTFMaterial]
    rcases pbr with _ | ⟨_ | ⟨_ | i⟩, _ | f, _ | ⟨_ | m⟩⟩ <;>
      rcases nt with _ | ⟨_ | j⟩ <;> rcases ot with _ | ⟨_ | k⟩ <;> simp
  · intro nm bct f nt ot et texs dn dw db
    rw [mkGLTFMaterial]
    rcases bct with _ | ⟨_ | i⟩ <;> rcases f with _ | f <;>
      rcases nt with _ | ⟨_ | j⟩ <;> rcases ot with _ | ⟨_ | k⟩ <;> rcases et with _ | ⟨_ | l⟩ <;>
      simp
  · intro nm i texs dn dw db h
    exact ⟨List.getElem?_eq_none h, rfl⟩

/-- An empty buffer view shared by the concrete example accessors. -/
def viewE : GLTFBufferView := mkGLTFBufferView [] 0 none none

/-- A float32 VEC3 positions accessor for the concrete examples. -/
def posAccE : GLTFAccessor :=
  { count := 3, componentType := 5126, gltfType := GLTFType.VEC3, view := viewE, byteOffset := 0 }

/-- A float32 VEC3 normals accessor for the concrete examples. -/
def normAccE : GLTFAccessor :=
  { count := 3, componentType := 5126, gltfType := GLTFType.VEC3, view := viewE, byteOffset := 0 }

/-- A float32 VEC2 UV accessor for the concrete examples. -/
def uvAccE : GLTFAccessor :=
  { count := 3, componentType := 5126, gltfType := GLTFType.VEC2, view := viewE, byteOffset := 0 }

/-- A uint32 SCALAR index accessor for the concrete examples. -/
def idxAccE : GLTFAccessor :=
  { count := 3, componentType := 5125, gltfType := GLTFType.SCALAR, view := viewE, byteOffset := 0 }

/-- The accessor pool of the concrete examples. -/
def accsE : List GLTFAccessor := [posAccE, normAccE, uvAccE, idxAccE]

/-- A fully resolved material whose five channels all reference image 0. -/
def matOKE : GLTFMaterial :=
  { name := "mat"
    baseColorTexture := some ⟨0⟩
    normalTexture := some ⟨0⟩
    occlusionTexture := some ⟨0⟩
    emissiveTexture := some ⟨0⟩
    metallicRoughnessTexture := some ⟨0⟩
    baseColorFactor := [1, 1, 1, 1] }

/-- An image pool with one GPU-resident image. -/
def imgsE : List GLTFImage := [⟨some ()⟩]

/-- A valid triangle-list primitive with a resolved material. -/
def primGoodE : GLTFPrimitive :=
  { positions := posAccE, normals := normAccE, UVs := uvAccE, indices := idxAccE
    topology := 4, material := some matOKE }

/-- The same primitive with an unresolved (`undefined`) material. -/
def primNoMatE : GLTFPrimitive :=
  { positions := posAccE, normals := normAccE, UVs := uvAccE, indices := idxAccE
    topology := 4, material := none }

/-- A primitive descriptor resolving all four accessors but naming no
material. -/
def descNoMatE : PrimDesc :=
  { mode := some 4
    indices := some 3
    attributes := [("POSITION", 0), ("NORMAL", 1), ("TEXCOORD_0", 2)]
    material := none }

/-- A complete primitive descriptor (mode absent, defaulting to 4). -/
def descFullE : PrimDesc :=
  { mode := none
    indices := some 3
    attributes := [("POSITION", 0), ("NORMAL", 1), ("TEXCOORD_0", 2)]
    material := none }

/-- A triangle-fan primitive descriptor (mode 6). -/
def descFanE : PrimDesc :=
  { mode := some 6
    indices := some 3
    attributes := [("POSITION", 0), ("NORMAL", 1), ("TEXCOORD_0", 2)]
    material := none }

/-- A primitive descriptor carrying only the POSITION attribute. -/
def descPosOnlyE : PrimDesc :=
  { mode := none, indices := none, attributes := [("POSITION", 0)], material := none }

/-- A mesh whose second primitive lacks a material. -/
def meshC6 : GLTFMesh := { name := "mesh", primitives := [primGoodE, primNoMatE] }

/-- A scene node holding that mesh. -/
def nodeC6 : GLTFNode := { name := "n", transform := Mat4.identity, mesh := some meshC6 }

/-- A primitive without a resolved material fails its own pipeline build
immediately at the material null check. -/
theorem buildPrim_noMaterial (images : List GLTFImage) (p : GLTFPrimitive)
    (h : p.material = none) :
    buildRenderPipelinePrim images p = Except.error "No material on mesh" := by
  rw [buildRenderPipelinePrim, h]

/-- A mesh pipeline build fails whenever some primitive of the mesh lacks a
resolved material (whichever primitive fails first, the error unwinds). -/
theorem buildMeshPipelines_error (images : List GLTFImage) (prims : List GLTFPrimitive)
    (h : ∃ p ∈ prims, p.material = none) :
    ∃ e, buildMeshPipelines images prims = Except.error e := by
  induction prims with
  | nil => simp at h
  | cons q rest ih =>
    obtain ⟨p, hp, hmat⟩ := h
    cases hq : buildRenderPipelinePrim images q with
    | error e =>
      refine ⟨e, ?_⟩
      rw [buildMeshPipelines, hq, error_bind]
    | ok u =>
      rcases List.mem_cons.mp hp with rfl | hmem
      · rw [buildPrim_noMaterial images p hmat] at hq
        exact absurd hq (by simp)
      · obtain ⟨e, he⟩ := ih ⟨p, hmem, hmat⟩
        refine ⟨e, ?_⟩
        cases u
        rw [buildMeshPipelines, hq, ok_bind, he]

/-- A scene pipeline build fails whenever any node's mesh contains a
primitive lacking a resolved material. -/
theorem buildScenePipelines_error (images : List GLTFImage) (nodes : List GLTFNode)
    (h : ∃ nd ∈ nodes, ∃ m, nd.mesh = some m ∧ ∃ p ∈ m.primitives, p.material = none) :
    ∃ e, buildScenePipelines images nodes = Except.error e := by
  induction nodes with
  | nil => simp at h
  | cons nd0 rest ih =>
    obtain ⟨nd, hnd, m, hm, hp⟩ := h
    cases hq : buildNodePipeline images nd0 with
    | error e =>
      refine ⟨e, ?_⟩
      rw [buildScenePipelines, hq, error_bind]
    | ok u =>
      rcases List.mem_cons.mp hnd with rfl | hmem
      · obtain ⟨e, he⟩ := buildMeshPipelines_error images m.primitives hp
        have hbn : buildNodePipeline images nd = buildMeshPipelines images m.primitives := by
          rw [buildNodePipeline, hm]
        rw [hbn, he] at hq
        exact absurd hq (by simp)
      · obtain ⟨e, he⟩ := ih ⟨nd, hmem, m, hm, hp⟩
        refine ⟨e, ?_⟩
        cases u
        rw [buildScenePipelines, hq, ok_bind, he]

/-- Counterexample to C6: at load time a primitive lacking a resolved
material is not dropped (it is pushed with an `undefined` material and no
diagnostic), and at pipeline-build time the missing material aborts the
whole scene's pipeline construction, not just the affected primitive —
the scene here also contains a fully valid primitive. -/
theorem c6_counterexample :
    mkMeshPrimitive accsE [] descNoMatE = (some primNoMatE, [])
    ∧ buildScenePipelines imgsE [nodeC6] = Except.error "No material on mesh" :=
  ⟨rfl, rfl⟩

/-- C6 amended: a primitive whose topology mode is neither 4 nor 5 is
rejected at load with a diagnostic and excluded, and the mesh keeps exactly
its remaining primitives — the fatality is per-primitive for topology. A
primitive lacking a resolved material, however, is not dropped at load; the
missing-material check fires when render pipelines are built and its error
propagates out of the whole scene's pipeline build. -/
theorem c6_unsupported_topology (accessors : List GLTFAccessor)
    (materials : List GLTFMaterial) :
    (∀ d : PrimDesc, d.mode.getD 4 ≠ 4 → d.mode.getD 4 ≠ 5 →
      mkMeshPrimitive accessors materials d = (none, ["Unsupported primitive mode"]))
    ∧ (∀ (l1 l2 : List PrimDesc) (d : PrimDesc), d.mode.getD 4 ≠ 4 → d.mode.getD 4 ≠ 5 →
      (loadMeshPrimitives accessors materials (l1 ++ d :: l2)).1
        = (loadMeshPrimitives accessors materials (l1 ++ l2)).1)
    ∧ (∀ (images : List GLTFImage) (nodes : List GLTFNode),
      (∃ nd ∈ nodes, ∃ m, nd.mesh = some m ∧ ∃ p ∈ m.primitives, p.material = none) →
        ∃ e, buildScenePipelines images nodes = Except.error e) := by
  have hskip : ∀ d : PrimDesc, d.mode.getD 4 ≠ 4 → d.mode.getD 4 ≠ 5 →
      mkMeshPrimitive accessors materials d = (none, ["Unsupported primitive mode"]) := by
    intro d h4 h5
    rw [mkMeshPrimitive, if_pos ⟨h4, h5⟩]
  refine ⟨hskip, ?_, fun images nodes h => buildScenePipelines_error images nodes h⟩
  intro l1 l2 d h4 h5
  induction l1 with
  | nil =>
    simp only [List.nil_append, loadMeshPrimitives]
    rw [hskip d h4 h5]
    rfl
  | cons e l1 ih =>
    simp only [List.cons_append, loadMeshPrimitives, List.append_eq]
    rw [ih]

/-- Witness for C6 amended: a mode-6 (triangle-fan) descriptor is dropped
with a diagnostic and the loaded primitive list is as if it were absent. -/
theorem c6_unsupported_topology_witness :
    mkMeshPrimitive accsE [] descFanE = (none, ["Unsupported primitive mode"])
    ∧ (loadMeshPrimitives accsE [] [descFullE, descFanE]).1
        = (loadMeshPrimitives accsE [] [descFullE]).1 :=
  ⟨(c6_unsupported_topology accsE []).1 descFanE (by decide) (by decide),
    (c6_unsupported_topology accsE []).2.1 [descFullE] [] descFanE (by decide) (by decide)⟩

/-- Counterexample to C7: a primitive descriptor carrying only a POSITION
attribute (normals, UVs and indices absent) is not included — the loader
drops it with a missing-components diagnostic. -/
theorem c7_counterexample :
    (mkMeshPrimitive accsE [] descPosOnlyE).1 = none
    ∧ (mkMeshPrimitive accsE [] descPosOnlyE).2
        = ["Primitive has missing components in mesh"] :=
  ⟨rfl, rfl⟩

/-- C7 amended: for a supported topology, a primitive is included in its
mesh's primitive list exactly when all four of its positions, normals, UVs
and indices accessors resolve — normals, UVs and indices are required just
like positions — and a dropped primitive always leaves a diagnostic. -/
theorem c7_required_attributes (accessors : List GLTFAccessor)
    (materials : List GLTFMaterial) (d : PrimDesc)
    (hmode : d.mode.getD 4 = 4 ∨ d.mode.getD 4 = 5) :
    ((mkMeshPrimitive accessors materials d).1.isSome ↔
      ((findAttrs accessors d.attributes).1.isSome
        ∧ (findAttrs accessors d.attributes).2.1.isSome
        ∧ (findAttrs accessors d.attributes).2.2.isSome
        ∧ (d.indices.bind fun i => accessors[i]?).isSome))
    ∧ ((mkMeshPrimitive accessors materials d).1 = none →
      (mkMeshPrimitive accessors materials d).2
        = ["Primitive has missing components in mesh"]) := by
  have hcond : ¬(d.mode.getD 4 ≠ 4 ∧ d.mode.getD 4 ≠ 5) := by tauto
  rw [mkMeshPrimitive, if_neg hcond]
  rcases hfa : findAttrs accessors d.attributes with ⟨p, n, u⟩
  cases p <;> cases n <;> cases u <;>
    cases hI : d.indices.bind (fun i => accessors[i]?) <;>
    simp [hfa, hI]

/-- Witness for C7 amended at a complete descriptor: all four attributes
resolve and the primitive is included. -/
theorem c7_required_attributes_witness :
    ((mkMeshPrimitive accsE [] descFullE).1.isSome ↔
      ((findAttrs accsE descFullE.attributes).1.isSome
        ∧ (findAttrs accsE descFullE.attributes).2.1.isSome
        ∧ (findAttrs accsE descFullE.attributes).2.2.isSome
        ∧ (descFullE.indices.bind fun i => accsE[i]?).isSome))
    ∧ ((mkMeshPrimitive accsE [] descFullE).1 = none →
      (mkMeshPrimitive accsE [] descFullE).2
        = ["Primitive has missing components in mesh"]) :=
  c7_required_attributes accsE [] descFullE (Or.inl rfl)

/-- C10: every renderable node built from one flattened scene root carries
the root node's name; the originating descendant's own name is discarded. -/
theorem c10_flattened_nodes_root_name (meshes : List GLTFMesh) (root : NodeTree)
    (nd : GLTFNode) (h : nd ∈ sceneNodesFromRoot meshes root) :
    nd.name = root.rootData.name := by
  rw [sceneNodesFromRoot] at h
  rw [List.mem_filterMap] at h
  obtain ⟨fn, _, hmap⟩ := h
  cases hm : fn.mesh with
  | none => rw [hm] at hmap; simp at hmap
  | some mi =>
    rw [hm] at hmap
    rw [← Option.some.inj hmap]

/-- The mesh pool for the C10 witness. -/
def meshesC10 : List GLTFMesh := [{ name := "m0", primitives := [] }]

/-- A two-node tree whose root is named `root` and whose child, which also
has a mesh, is named `child`. -/
def treeC10 : NodeTree :=
  NodeTree.node
    { matrix := some Mat4.identity, scale := none, rotation := none, translation := none
      mesh := some 0, name := "root" }
    [NodeTree.node
      { matrix := some Mat4.identity, scale := none, rotation := none, translation := none
        mesh := some 0, name := "child" }
      []]

/-- The renderable node produced from the `child` descendant of `treeC10`. -/
def ndC10 : GLTFNode :=
  { name := "root"
    transform := Mat4.mul Mat4.identity Mat4.identity
    mesh := some { name := "m0", primitives := [] } }

/-- Witness for C10: the node flattened from the descendant named `child`
is a member of the root's node list and carries the root's name. -/
theorem c10_flattened_nodes_root_name_witness :
    ndC10 ∈ sceneNodesFromRoot meshesC10 treeC10 ∧ ndC10.name = treeC10.rootData.name := by
  have hlist : sceneNodesFromRoot meshesC10 treeC10
      = [{ name := "root", transform := Mat4.identity
           mesh := some { name := "m0", primitives := [] } }, ndC10] := rfl
  have hmem : ndC10 ∈ sceneNodesFromRoot meshesC10 treeC10 := by
    rw [hlist]
    exact List.mem_cons_of_mem _ (List.mem_cons_self _ _)
  exact ⟨hmem, c10_flattened_nodes_root_name meshesC10 treeC10 ndC10 hmem⟩

/-- Left multiplication by the identity matrix is the identity. -/
theorem Mat4.identity_mul (m : Mat4) : Mat4.mul Mat4.identity m = m := by
  ext <;> simp [Mat4.mul, Mat4.identity]

/-- The gl-matrix combined TRS constructor equals the matrix product
translation x rotation x scale, as an exact polynomial identity. -/
theorem fromRotationTranslationScale_eq_product (q : ℚ × ℚ × ℚ × ℚ) (v s : ℚ × ℚ × ℚ) :
    Mat4.fromRotationTranslationScale q v s
      = Mat4.mul (Mat4.translationOf v) (Mat4.mul (Mat4.rotationOf q) (Mat4.scaleOf s)) := by
  obtain ⟨x, y, z, w⟩ := q
  obtain ⟨vx, vy, vz⟩ := v
  obtain ⟨sx, sy, sz⟩ := s
  ext <;>
    simp [Mat4.fromRotationTranslationScale, Mat4.mul, Mat4.translationOf, Mat4.rotationOf,
      Mat4.scaleOf, Mat4.identity] <;>
    ring

/-- The source's node-transform reader agrees with the spec's local
transform: the matrix verbatim, or the product T * (R * S). -/
theorem readNodeTransform_eq_specLocal (d : NodeData) :
    readNodeTransform d = specLocalTransform d := by
  cases hm : d.matrix with
  | some m => rw [readNodeTransform, specLocalTransform, hm]
  | none =>
    rw [readNodeTransform, specLocalTransform, hm]
    exact fromRotationTranslationScale_eq_product _ _ _

mutual

/-- Below a parent transform, the source's flattener agrees with the
spec-side pre-order flattener. -/
theorem flattenTree_eq_spec (p : Mat4) (t : NodeTree) :
    flattenTree (some p) t = specFlatten p t := by
  cases t with
  | node d cs =>
    simp only [flattenTree, specFlatten]
    rw [← readNodeTransform_eq_specLocal]
    rw [flattenTreeChildren_eq_spec]

/-- Forest version of `flattenTree_eq_spec`. -/
theorem flattenTreeChildren_eq_spec (p : Mat4) (cs : List NodeTree) :
    flattenTreeChildren p cs = specFlattenChildren p cs := by
  cases cs with
  | nil => rfl
  | cons c rest =>
    rw [flattenTreeChildren, specFlattenChildren, flattenTree_eq_spec,
      flattenTreeChildren_eq_spec]

end

/-- At a root (null parent transform) the source's flattener agrees with the
spec-side flattener seeded with the identity parent. -/
theorem flattenTree_none_eq_spec (t : NodeTree) :
    flattenTree none t = specFlatten Mat4.identity t := by
  cases t with
  | node d cs =>
    simp only [flattenTree, specFlatten]
    rw [Mat4.identity_mul, ← readNodeTransform_eq_specLocal]
    rw [flattenTreeChildren_eq_spec]

mutual

/-- The spec-side flattener emits exactly one entry per node. -/
theorem specFlatten_length (p : Mat4) (t : NodeTree) :
    (specFlatten p t).length = treeSize t := by
  cases t with
  | node d cs =>
    simp only [specFlatten, treeSize, List.length_cons, specFlattenChildren_length]
    omega

/-- Forest version of `specFlatten_length`. -/
theorem specFlattenChildren_length (p : Mat4) (cs : List NodeTree) :
    (specFlattenChildren p cs).length = treeSizeList cs := by
  cases cs with
  | nil => rfl
  | cons c rest =>
    simp only [specFlattenChildren, treeSizeList, List.length_append, specFlatten_length,
      specFlattenChildren_length]

end

/-- C1: flattening a root (with the source's null parent transform) equals
the spec-side depth-first pre-order traversal seeded with the identity
parent — so each emitted entry's transform is the parent's absolute
transform times the node's local transform, the local transform being the
supplied matrix verbatim or the scale-then-rotate-then-translate
composition — and the flattened list has exactly one entry per node of the
subtree. -/
theorem c1_flatten_pre_order (t : NodeTree) :
    flattenTree none t = specFlatten Mat4.identity t
    ∧ (flattenTree none t).length = treeSize t :=
  ⟨flattenTree_none_eq_spec t, by rw [flattenTree_none_eq_spec t, specFlatten_length]⟩

/-- Witness for C9 amended: the out-of-range clause at index 5 over a
one-texture pool. -/
theorem c9_texture_fallback_witness :
    (mkGLTFMaterial ⟨"w", some ⟨some ⟨some 5⟩, none, none⟩, none, none, none⟩ texsC9 texDN
        texDW texDB).1.baseColorTexture = none
    ∧ (mkGLTFMaterial ⟨"w", some ⟨some ⟨some 5⟩, none, none⟩, none, none, none⟩ texsC9 texDN
        texDW texDB).2 = [] :=
  c9_texture_fallback.2.2.2.2.2.2 "w" 5 texsC9 texDN texDW texDB (by decide)

/-- The 32-byte buffer refuting C2: valid magic, version 2, a one-byte JSON
chunk containing only `A` (which is not valid JSON), and bytes at the
second chunk's type-tag position (offset 25) that differ from the binary
tag. -/
def cbufC2 : List ℕ :=
  [0x67, 0x6C, 0x54, 0x46, 2, 0, 0, 0, 32, 0, 0, 0, 1, 0, 0, 0, 0x4A, 0x53, 0x4F, 0x4E,
    0x41, 0, 0, 0, 0, 0, 0, 0, 0, 0, 0, 0]

/-- Counterexample to C2: on `cbufC2` the second chunk's type tag differs
from the binary tag, yet `JSON.parse` throws a SyntaxError before the
binary-chunk check is reached, so the load does not fail with a
FormatError — the stated biconditional is false for this buffer. -/
theorem c2_counterexample : ¬ claimC2At cbufC2 := by
  unfold claimC2At
  decide

/-- C2 amended: the load fails with a FormatError exactly when the header is
readable (at least 20 bytes) and either the magic word, the version word or
the first chunk's type tag mismatches, or the earlier checks pass, the JSON
chunk is in range and parses, the binary chunk header is readable, and the
second chunk's type tag mismatches; a mismatch of the first chunk's tag
(with magic and version valid) aborts with the message naming the JSON
chunk. A buffer failing the JSON parse or a typed-array range check aborts
with a SyntaxError or RangeError instead, so no scene is returned either
way. -/
theorem c2_format_error_conditions :
    (∀ buf : List ℕ,
      isFormatError (uploadGLBContainerPhase buf) = true ↔
        (20 ≤ buf.length ∧
          (readU32 buf 0 ≠ 0x46546C67 ∨ readU32 buf 4 ≠ 2 ∨ readU32 buf 16 ≠ 0x4E4F534A
            ∨ (20 + readU32 buf 12 ≤ buf.length
                ∧ jsonParses ((buf.drop 20).take (readU32 buf 12)) = true
                ∧ (20 + readU32 buf 12) % 4 = 0
                ∧ 20 + readU32 buf 12 + 8 ≤ buf.length
                ∧ readU32 buf (24 + readU32 buf 12) ≠ 0x004E4942))))
    ∧ (∀ buf : List ℕ, 20 ≤ buf.length → readU32 buf 0 = 0x46546C67 → readU32 buf 4 = 2 →
        readU32 buf 16 ≠ 0x4E4F534A →
        uploadGLBContainerPhase buf = Except.error (LoadErr.formatError jsonChunkErrMsg))
    ∧ (∃ pre post : String, jsonChunkErrMsg = pre ++ ("JSON chunk" ++ post)) := by
  refine ⟨?_, ?_, ⟨"Invalid glB: The first chunk of the glB file is not a ", "!", rfl⟩⟩
  · intro buf
    rw [uploadGLBContainerPhase]
    split_ifs with h1 h2 h3 h4 h5 h6 h7 h8
    · refine iff_of_false (by simp [isFormatError]) ?_
      rintro ⟨hlen, -⟩
      omega
    · exact iff_of_true rfl ⟨by omega, Or.inl h2⟩
    · exact iff_of_true rfl ⟨by omega, Or.inr (Or.inl h3)⟩
    · exact iff_of_true rfl ⟨by omega, Or.inr (Or.inr (Or.inl h4))⟩
    · refine iff_of_false (by simp [isFormatError]) ?_
      rintro ⟨hlen, hd⟩
      rcases hd with h | h | h | ⟨hle, -⟩
      · exact h2 h
      · exact h3 h
      · exact h4 h
      · omega
    · refine iff_of_false (by simp [isFormatError]) ?_
      rintro ⟨hlen, hd⟩
      rcases hd with h | h | h | ⟨-, -, hmod, hrange, -⟩
      · exact h2 h
      · exact h3 h
      · exact h4 h
      · rcases h7 with h7 | h7
        · exact h7 hmod
        · omega
    · refine iff_of_true rfl ⟨by omega, Or.inr (Or.inr (Or.inr ⟨by omega, h6, ?_, ?_, h8⟩))⟩
      · rcases not_or.mp h7 with ⟨hmod, -⟩
        exact not_not.mp hmod
      · rcases not_or.mp h7 with ⟨-, hrange⟩
        omega
    · refine iff_of_false (by simp [isFormatError]) ?_
      rintro ⟨hlen, hd⟩
      rcases hd with h | h | h | ⟨-, -, -, -, htag⟩
      · exact h2 h
      · exact h3 h
      · exact h4 h
      · exact h8 htag
    · refine iff_of_false (by simp [isFormatError]) ?_
      rintro ⟨hlen, hd⟩
      rcases hd with h | h | h | ⟨-, hjson, -⟩
      · exact h2 h
      · exact h3 h
      · exact h4 h
      · exact h6 hjson
  · intro buf h1 h2 h3 h4
    rw [uploadGLBContainerPhase, if_neg (by omega), if_neg (by simp [h2]),
      if_neg (by simp [h3]), if_pos h4]

/-- A 20-byte buffer with valid magic and version whose first chunk tag is
zero rather than the JSON tag. -/
def cbufW : List ℕ :=
  [0x67, 0x6C, 0x54, 0x46, 2, 0, 0, 0, 20, 0, 0, 0, 0, 0, 0, 0, 0, 0, 0, 0]

/-- Witness for C2 amended: the first-chunk-tag mismatch aborts with the
FormatError whose message names the JSON chunk. -/
theorem c2_format_error_conditions_witness :
    uploadGLBContainerPhase cbufW = Except.error (LoadErr.formatError jsonChunkErrMsg) :=
  c2_format_error_conditions.2.1 cbufW (by decide) (by decide) (by decide) (by decide)

end Spec2Proof
